import Mathlib

set_option autoImplicit false

/-!
Shallow embedding of the metadata core of the repository: the Opus format
adapter (src/components/opus_tag.rs) and the generic tag container
(src/types/tag.rs), together with the theorems settling the specification
claims about them.
-/

namespace LoftySpec

/-! ## Rust numeric string parsing -/

/-- Core of Rust integer parsing: a non-empty, all-ASCII-digit character list
evaluated in base 10, as `from_str_radix` does after the sign is stripped. -/
def digitsToNat? (cs : List Char) : Option Nat :=
  if cs ≠ [] ∧ cs.all Char.isDigit then
    some (cs.foldl (fun acc c => acc * 10 + (c.toNat - 48)) 0)
  else
    none

/-- Rust `str::parse::<i32>`: optional leading sign, 1+ digits, result within
the `i32` range, `None` on any other input. -/
def parseI32 (s : String) : Option Int :=
  match s.data with
  | '+' :: rest => (digitsToNat? rest).bind fun n =>
      if n ≤ 2147483647 then some (n : Int) else none
  | '-' :: rest => (digitsToNat? rest).bind fun n =>
      if n ≤ 2147483648 then some (-(n : Int)) else none
  | cs => (digitsToNat? cs).bind fun n =>
      if n ≤ 2147483647 then some (n : Int) else none

/-- Rust `str::parse::<u16>`: optional leading plus, 1+ digits, result within
the `u16` range, `None` on any other input. -/
def parseU16 (s : String) : Option Nat :=
  match s.data with
  | '+' :: rest => (digitsToNat? rest).bind fun n =>
      if n ≤ 65535 then some n else none
  | cs => (digitsToNat? cs).bind fun n =>
      if n ≤ 65535 then some n else none

/-- Rust `as u16` applied to an `i32` value: truncation of the two's-complement
representation to 16 bits. -/
def i32AsU16 (y : Int) : Nat := (y.emod 65536).toNat

/-! ## Modelled peripheral types (not under src/) -/

/-- Modelled from the spec: the declared picture type of a `Picture`
(src/types/picture.rs is not under src/); a closed set of codes with a front
cover, a back cover, and numbered other codes. -/
inductive PictureType where
  | coverFront
  | coverBack
  | other (code : Nat)
deriving DecidableEq

/-- Modelled from the spec: the format-independent cover-art payload — bytes
plus declared picture type plus MIME type (spec section 2). -/
structure Picture where
  pic_type : PictureType
  mime_type : String
  data : List Nat
deriving DecidableEq

/-! ## The wrapped Opus native structure (opus_headers) -/

/-- Identification header of the wrapped `OpusHeaders` structure, with the
fields `MissingImplementations::default` fills in. -/
structure IdentificationHeader where
  version : Nat
  channel_count : Nat
  pre_skip : Nat
  input_sample_rate : Nat
  output_gain : Int
  channel_mapping_family : Nat
  channel_mapping_table : Option (List Nat)
deriving DecidableEq

/-- Comment header: the vendor string and the user-comment key/value store.
The `HashMap<String, String>` is modelled as an association list. -/
structure CommentHeader where
  vendor : String
  user_comments : List (String × String)
deriving DecidableEq

/-- The `OpusHeaders` structure, aliased `OpusInnerTag` in the source. -/
structure OpusInnerTag where
  id : IdentificationHeader
  comments : CommentHeader
deriving DecidableEq

/-- The `MissingImplementations::default` constructor: all-zero identification
header, empty vendor, empty comment map. -/
def OpusInnerTag.default : OpusInnerTag :=
  { id := { version := 0, channel_count := 0, pre_skip := 0,
            input_sample_rate := 0, output_gain := 0,
            channel_mapping_family := 0, channel_mapping_table := none },
    comments := { vendor := "", user_comments := [] } }

/-- The `OpusTag` newtype produced by
`impl_tag!(OpusTag, OpusInnerTag, TagType::Opus)`; `inner` plays the role of
`self.0`. -/
structure OpusTag where
  inner : OpusInnerTag
deriving DecidableEq

/-- The derived `OpusTag::default`. -/
def OpusTag.default : OpusTag := ⟨OpusInnerTag.default⟩

/-- Association-list reading of `HashMap::get_key_value` restricted to the
value: the stored value under `key`, if any. -/
def mapGet : List (String × String) → String → Option String
  | [], _ => none
  | kv :: rest, key => if kv.1 = key then some kv.2 else mapGet rest key

/-- Embedding of `OpusTag::get_first`: the stored value under `key`, with an
empty stored string reported as absent. -/
def OpusTag.get_first (t : OpusTag) (key : String) : Option String :=
  match mapGet t.inner.comments.user_comments key with
  | some v => if v = "" then none else some v
  | none => none

/-- Embedding of `OpusTag::set_first`. The source matches on
`comments.get_mut(key)`; its `Some(mut v)` arm executes
`v = &mut val.to_string()`, which rebinds the local reference `v` to a fresh
temporary and never writes through it, and its `None` arm is empty. The
comment map is therefore unchanged in both arms. -/
def OpusTag.set_first (t : OpusTag) (key val : String) : OpusTag :=
  match mapGet t.inner.comments.user_comments key with
  | some _ => t
  | none => t

/-- Embedding of `OpusTag::remove`: `retain(|k, _| k != key)` on the comment
map. -/
def OpusTag.remove (t : OpusTag) (key : String) : OpusTag :=
  ⟨{ t.inner with comments := { t.inner.comments with
      user_comments := t.inner.comments.user_comments.filter
        (fun kv => kv.1 != key) } }⟩

/-! ## The `AudioTagEdit` implementation for `OpusTag` -/

def OpusTag.title (t : OpusTag) : Option String := t.get_first "TITLE"

def OpusTag.set_title (t : OpusTag) (title : String) : OpusTag :=
  t.set_first "TITLE" title

def OpusTag.remove_title (t : OpusTag) : OpusTag := t.remove "TITLE"

def OpusTag.artist (t : OpusTag) : Option String := t.get_first "ARTIST"

def OpusTag.set_artist (t : OpusTag) (artist : String) : OpusTag :=
  t.set_first "ARTIST" artist

def OpusTag.remove_artist (t : OpusTag) : OpusTag := t.remove "ARTIST"

/-- Embedding of `OpusTag::year`: parse the first four characters of the DATE
entry as an `i32`; when DATE is absent or that parse fails, parse the whole
YEAR entry as an `i32`; when both fail, report absent. A parsed value is cast
`as u16`. -/
def OpusTag.year (t : OpusTag) : Option Nat :=
  match (t.get_first "DATE").map (fun s => parseI32 (String.mk (s.data.take 4))) with
  | some (some y) => some (i32AsU16 y)
  | _ =>
    match (t.get_first "YEAR").map (fun s => parseI32 s) with
    | some (some y) => some (i32AsU16 y)
    | _ => none

/-- Embedding of `OpusTag::set_year`: `set_first` on DATE, then on YEAR, with
the decimal rendering of the year. -/
def OpusTag.set_year (t : OpusTag) (year : Nat) : OpusTag :=
  (t.set_first "DATE" (toString year)).set_first "YEAR" (toString year)

/-- Embedding of `OpusTag::remove_year`: remove YEAR, then DATE. -/
def OpusTag.remove_year (t : OpusTag) : OpusTag :=
  (t.remove "YEAR").remove "DATE"

def OpusTag.album_title (t : OpusTag) : Option String := t.get_first "ALBUM"

def OpusTag.set_album_title (t : OpusTag) (title : String) : OpusTag :=
  t.set_first "ALBUM" title

def OpusTag.remove_album_title (t : OpusTag) : OpusTag := t.remove "ALBUM"

def OpusTag.album_artist (t : OpusTag) : Option String :=
  t.get_first "ALBUMARTIST"

def OpusTag.set_album_artist (t : OpusTag) (v : String) : OpusTag :=
  t.set_first "ALBUMARTIST" v

def OpusTag.remove_album_artist (t : OpusTag) : OpusTag :=
  t.remove "ALBUMARTIST"

/-- Embedding of `OpusTag::album_cover`: the body is commented out and the
function returns `None` unconditionally. -/
def OpusTag.album_cover (_t : OpusTag) : Option Picture := none

/-- Embedding of `OpusTag::set_album_cover`: the body is commented out; no
state is touched. -/
def OpusTag.set_album_cover (t : OpusTag) (_cover : Picture) : OpusTag := t

/-- Embedding of `OpusTag::remove_album_cover`: the body is commented out; no
state is touched. -/
def OpusTag.remove_album_cover (t : OpusTag) : OpusTag := t

/-- Embedding of `OpusTag::track_number`: parse the TRACKNUMBER entry as a
`u16`; absent or unparsable entries report absent. -/
def OpusTag.track_number (t : OpusTag) : Option Nat :=
  match (t.get_first "TRACKNUMBER").map parseU16 with
  | some (some n) => some n
  | _ => none

def OpusTag.set_track_number (t : OpusTag) (v : Nat) : OpusTag :=
  t.set_first "TRACKNUMBER" (toString v)

def OpusTag.remove_track_number (t : OpusTag) : OpusTag :=
  t.remove "TRACKNUMBER"

/-- Embedding of `OpusTag::total_tracks` (a non-standard key). -/
def OpusTag.total_tracks (t : OpusTag) : Option Nat :=
  match (t.get_first "TOTALTRACKS").map parseU16 with
  | some (some n) => some n
  | _ => none

def OpusTag.set_total_tracks (t : OpusTag) (v : Nat) : OpusTag :=
  t.set_first "TOTALTRACKS" (toString v)

def OpusTag.remove_total_tracks (t : OpusTag) : OpusTag :=
  t.remove "TOTALTRACKS"

/-- Embedding of `OpusTag::disc_number`. -/
def OpusTag.disc_number (t : OpusTag) : Option Nat :=
  match (t.get_first "DISCNUMBER").map parseU16 with
  | some (some n) => some n
  | _ => none

def OpusTag.set_disc_number (t : OpusTag) (v : Nat) : OpusTag :=
  t.set_first "DISCNUMBER" (toString v)

def OpusTag.remove_disc_number (t : OpusTag) : OpusTag :=
  t.remove "DISCNUMBER"

/-- Embedding of `OpusTag::total_discs` (a non-standard key). -/
def OpusTag.total_discs (t : OpusTag) : Option Nat :=
  match (t.get_first "TOTALDISCS").map parseU16 with
  | some (some n) => some n
  | _ => none

def OpusTag.set_total_discs (t : OpusTag) (v : Nat) : OpusTag :=
  t.set_first "TOTALDISCS" (toString v)

def OpusTag.remove_total_discs (t : OpusTag) : OpusTag :=
  t.remove "TOTALDISCS"

/-- Modelled from the spec: the trait helper reading the artist list of an
adapter (the trait with its provided methods is not under src/); the single
artist field is exposed as a one-element list, since multiplicity beyond the
first entry is not represented (spec section 4.4). -/
def OpusTag.artists (t : OpusTag) : Option (List String) :=
  t.artist.map (fun a => [a])

/-- Modelled from the spec: the trait helper reading the album-artist list of
an adapter, as a one-element list. -/
def OpusTag.album_artists (t : OpusTag) : Option (List String) :=
  t.album_artist.map (fun a => [a])

/-! ## The `AnyTag` pivot (not under src/) -/

/-- Modelled from the spec: the pivot `AnyTag` (src/types/anytag.rs is not
under src/) — optional common fields: title, artist list, year as signed
integer, album title, album-artist list, a single cover picture, and
track/disc numbers and totals (spec sections 2 and 3). -/
structure AnyTag where
  title : Option String
  artists : Option (List String)
  year : Option Int
  album : Option String
  album_artists : Option (List String)
  cover : Option Picture
  track_number : Option Nat
  total_tracks : Option Nat
  disc_number : Option Nat
  total_discs : Option Nat
deriving DecidableEq

/-- Modelled from the spec: the all-absent `AnyTag::default`. -/
def AnyTag.default : AnyTag :=
  { title := none, artists := none, year := none, album := none,
    album_artists := none, cover := none, track_number := none,
    total_tracks := none, disc_number := none, total_discs := none }

/-- Modelled from the spec: the `AnyTag` helper joining the artist list into a
single string (the helper is not under src/); modelled as interleaving the
artists with a separator. -/
def AnyTag.artists_as_string (t : AnyTag) : Option String :=
  t.artists.map (fun l => String.intercalate ";" l)

/-- Modelled from the spec: the `AnyTag` helper joining the album-artist list
into a single string. -/
def AnyTag.album_artists_as_string (t : AnyTag) : Option String :=
  t.album_artists.map (fun l => String.intercalate ";" l)

/-- Embedding of `impl From<&'a OpusTag> for AnyTag<'a>`: every pivot field is
populated from the corresponding adapter getter. The source borrows the
adapter immutably and every getter takes `&self`, so the adapter as it stands
when the conversion returns is carried in the second component. -/
def AnyTag.fromOpus (inp : OpusTag) : AnyTag × OpusTag :=
  ({ title := inp.title,
     artists := inp.artists,
     year := inp.year.map (fun y => (y : Int)),
     album := inp.album_title,
     album_artists := inp.album_artists,
     cover := inp.album_cover,
     track_number := inp.track_number,
     total_tracks := inp.total_tracks,
     disc_number := inp.disc_number,
     total_discs := inp.total_discs }, inp)

/-- Embedding of `impl From<AnyTag> for OpusTag`: start from the default
adapter and invoke a setter for every present pivot field. Note that the
source calls `set_artist` (not `set_album_artist`) for the joined album-artist
string, and casts the `i32` year `as u16`. -/
def OpusTag.fromAny (inp : AnyTag) : OpusTag :=
  let t := OpusTag.default
  let t := match inp.title with | some v => t.set_title v | none => t
  let t := match inp.artists_as_string with | some v => t.set_artist v | none => t
  let t := match inp.year with | some v => t.set_year (i32AsU16 v) | none => t
  let t := match inp.album with | some v => t.set_album_title v | none => t
  let t := match inp.album_artists_as_string with | some v => t.set_artist v | none => t
  let t := match inp.track_number with | some v => t.set_track_number v | none => t
  let t := match inp.total_tracks with | some v => t.set_total_tracks v | none => t
  let t := match inp.disc_number with | some v => t.set_disc_number v | none => t
  let t := match inp.total_discs with | some v => t.set_total_discs v | none => t
  t

/-! ## The `AudioTagWrite` implementation for `OpusTag` -/

/-- Modelled from the spec: the error half of `crate::Result` (the crate error
enumeration is not under src/). -/
inductive CrateError where
  | err (msg : String)
deriving DecidableEq

/-- Modelled from the spec: an open file handle, reduced to the byte content
at the destination. -/
structure File where
  bytes : List Nat
deriving DecidableEq

/-- Modelled from the spec: path-addressed storage, the destination of
`write_to_path`. -/
structure Storage where
  files : List (String × List Nat)
deriving DecidableEq

/-- Embedding of `AudioTagWrite::write_to` for `OpusTag`: the serialization
call is commented out and the body is `Ok(())`; the adapter and the file are
carried through unchanged. -/
def OpusTag.write_to (t : OpusTag) (file : File) :
    Except CrateError Unit × OpusTag × File :=
  (Except.ok (), t, file)

/-- Embedding of `AudioTagWrite::write_to_path` for `OpusTag`: the
serialization call is commented out and the body is `Ok(())`; the adapter and
the storage are carried through unchanged. -/
def OpusTag.write_to_path (t : OpusTag) (_path : String) (fs : Storage) :
    Except CrateError Unit × OpusTag × Storage :=
  (Except.ok (), t, fs)

/-! ## The generic tag container (src/types/tag.rs) -/

/-- Embedding of `TagType` with every format feature enabled. -/
inductive TagType where
  | Ape
  | Id3v2
  | Mp4
  | Opus
  | Vorbis
  | Flac
  | RiffInfo
  | AiffText
deriving DecidableEq

/-- Modelled from the spec: the canonical `ItemKey` enumeration
(src/types/item.rs is not under src/); the named field list of spec
section 3. -/
inductive ItemKey where
  | Title
  | Artist
  | Album
  | AlbumArtist
  | Year
  | TrackNumber
  | TrackTotal
  | DiscNumber
  | DiscTotal
deriving DecidableEq

/-- Modelled from the spec: `ItemKey::map_key` (src/types/item.rs is not under
src/), the pure function from canonical key and format to the optional native
key representation (spec section 4.1). For the comment-based formats the
native keys follow the Opus adapter; the tables of the remaining formats are
not modelled, so their pairs are treated as unmapped. Within each format no
two canonical keys share a native key. -/
def ItemKey.map_key (key : ItemKey) (tagType : TagType) : Option String :=
  match tagType with
  | .Opus | .Vorbis | .Flac =>
    match key with
    | .Title => some "TITLE"
    | .Artist => some "ARTIST"
    | .Album => some "ALBUM"
    | .AlbumArtist => some "ALBUMARTIST"
    | .Year => some "DATE"
    | .TrackNumber => some "TRACKNUMBER"
    | .TrackTotal => some "TOTALTRACKS"
    | .DiscNumber => some "DISCNUMBER"
    | .DiscTotal => some "TOTALDISCS"
  | _ => none

/-- Embedding of `ItemValue`: Text, Locator or Binary payload. -/
inductive ItemValue where
  | Text (s : String)
  | Locator (s : String)
  | Binary (b : List Nat)
deriving DecidableEq

/-- Embedding of `TagItem`: an `ItemKey` together with an `ItemValue`. -/
structure TagItem where
  item_key : ItemKey
  item_value : ItemValue
deriving DecidableEq

/-- Embedding of `TagItem::re_map`: keep the item exactly when its key maps
into the target format. -/
def TagItem.re_map (item : TagItem) (tagType : TagType) : Option TagItem :=
  if (item.item_key.map_key tagType).isSome then some item else none

/-- Embedding of `Tag`: the format, the pictures and the items. -/
structure Tag where
  tag_type : TagType
  pictures : List Picture
  items : List TagItem
deriving DecidableEq

/-- An empty tag of a given format (spec section 3: a Tag is created empty or
from a parsed native structure). -/
def Tag.empty (tagType : TagType) : Tag :=
  { tag_type := tagType, pictures := [], items := [] }

/-- Embedding of `Tag::item_count`: `items.len() as u32`. -/
def Tag.item_count (t : Tag) : Nat := t.items.length % 4294967296

/-- Embedding of `Tag::picture_count`: `pictures.len() as u32`. -/
def Tag.picture_count (t : Tag) : Nat := t.pictures.length % 4294967296

/-- Embedding of `Tag::get_item_ref`: the first stored item with the given
key. -/
def Tag.get_item_ref (t : Tag) (key : ItemKey) : Option TagItem :=
  t.items.find? (fun i => decide (i.item_key = key))

/-- Writing through `iter_mut().find(...)` in `Tag::insert_item`: replace the
first stored item whose key equals the new item's key. -/
def replaceFirst (items : List TagItem) (item : TagItem) : List TagItem :=
  match items with
  | [] => []
  | i :: rest =>
    if i.item_key = item.item_key then item :: rest else i :: replaceFirst rest item

/-- Embedding of `Tag::insert_item`: re-map the item against the tag's own
type; on success push it (no stored item shares its key) or overwrite the
stored item sharing its key, and return true; on failure return false and
leave the tag unchanged. -/
def Tag.insert_item (t : Tag) (item : TagItem) : Bool × Tag :=
  match item.re_map t.tag_type with
  | some item =>
    match t.items.find? (fun i => decide (i.item_key = item.item_key)) with
    | none => (true, { t with items := t.items ++ [item] })
    | some _ => (true, { t with items := replaceFirst t.items item })
  | none => (false, t)

/-- Embedding of `Tag::push_picture`. -/
def Tag.push_picture (t : Tag) (picture : Picture) : Tag :=
  { t with pictures := t.pictures ++ [picture] }

/-- Embedding of `Iterator::position`: the index of the first element
satisfying the predicate. -/
def position {α : Type} (p : α → Bool) : List α → Option Nat
  | [] => none
  | x :: xs => if p x then some 0 else (position p xs).map (· + 1)

/-- Embedding of `Tag::remove_picture_type`: find the position of the first
picture of the declared type and `Vec::remove` it; absent a match, do
nothing. -/
def Tag.remove_picture_type (t : Tag) (picture_type : PictureType) : Tag :=
  match position (fun p => decide (p.pic_type = picture_type)) t.pictures with
  | some pos => { t with pictures := t.pictures.eraseIdx pos }
  | none => t

/-- Embedding of `Tag::remove_picture`: retain every picture not equal to the
given one. -/
def Tag.remove_picture (t : Tag) (picture : Picture) : Tag :=
  { t with pictures := t.pictures.filter (fun p => p != picture) }

/-- The tags reachable from the empty tag of a format through `insert_item`
operations. -/
inductive TagReachable (tagType : TagType) : Tag → Prop where
  | empty : TagReachable tagType (Tag.empty tagType)
  | insert (t : Tag) (item : TagItem) (h : TagReachable tagType t) :
      TagReachable tagType (t.insert_item item).2

/-- Specification-side characterization of removing the first match of a
predicate from a list, used to describe `Tag::remove_picture_type`. -/
def dropFirstMatch {α : Type} (p : α → Bool) : List α → List α
  | [] => []
  | x :: xs => if p x then xs else x :: dropFirstMatch p xs

/-- The tag built by the spec scenario: an empty Vorbis tag after inserting a
TrackNumber item with text "3". -/
def vorbisTag1 : Tag :=
  ((Tag.empty TagType.Vorbis).insert_item
    ⟨ItemKey.TrackNumber, ItemValue.Text "3"⟩).2

/-! ## Concrete adapter states used to evaluate the claims -/

/-- A default Opus adapter whose comment map holds an existing TITLE entry
with value "old". -/
def opusWithOldTitle : OpusTag :=
  ⟨{ OpusInnerTag.default with
      comments := { vendor := "", user_comments := [("TITLE", "old")] } }⟩

/-- A default Opus adapter whose comment map holds a TITLE entry with value
"Song". -/
def opusWithSongTitle : OpusTag :=
  ⟨{ OpusInnerTag.default with
      comments := { vendor := "", user_comments := [("TITLE", "Song")] } }⟩

/-- A default Opus adapter whose numeric comment entries are all malformed:
none of the stored strings parses as the required integer. -/
def opusMalformed : OpusTag :=
  ⟨{ OpusInnerTag.default with
      comments :=
        { vendor := "",
          user_comments :=
            [("TRACKNUMBER", "abc"), ("TOTALTRACKS", "1x"),
             ("DISCNUMBER", "-1"), ("TOTALDISCS", "70000"),
             ("DATE", "abcd"), ("YEAR", "199x")] } }⟩

/-! ## Helper lemmas about the tag container -/

theorem insert_item_eq_none {t : Tag} {item : TagItem}
    (hr : item.re_map t.tag_type = none) :
    t.insert_item item = (false, t) := by
  unfold Tag.insert_item
  simp only [hr]

theorem insert_item_eq_push {t : Tag} {item it : TagItem}
    (hr : item.re_map t.tag_type = some it)
    (hf : t.items.find? (fun i => decide (i.item_key = it.item_key)) = none) :
    t.insert_item item = (true, { t with items := t.items ++ [it] }) := by
  unfold Tag.insert_item
  simp only [hr, hf]

theorem insert_item_eq_replace {t : Tag} {item it j : TagItem}
    (hr : item.re_map t.tag_type = some it)
    (hf : t.items.find? (fun i => decide (i.item_key = it.item_key)) = some j) :
    t.insert_item item = (true, { t with items := replaceFirst t.items it }) := by
  unfold Tag.insert_item
  simp only [hr, hf]

theorem insert_item_tag_type (t : Tag) (item : TagItem) :
    (t.insert_item item).2.tag_type = t.tag_type := by
  rcases hr : item.re_map t.tag_type with _ | it
  · rw [insert_item_eq_none hr]
  · rcases hf : t.items.find? (fun i => decide (i.item_key = it.item_key)) with _ | j
    · rw [insert_item_eq_push hr hf]
    · rw [insert_item_eq_replace hr hf]

theorem re_map_some {item it : TagItem} {tt : TagType}
    (h : item.re_map tt = some it) :
    it = item ∧ (item.item_key.map_key tt).isSome = true := by
  unfold TagItem.re_map at h
  split at h
  · exact ⟨(Option.some.inj h).symm, by assumption⟩
  · simp at h

theorem re_map_of_isSome {item : TagItem} {tt : TagType}
    (h : (item.item_key.map_key tt).isSome = true) :
    item.re_map tt = some item := by
  unfold TagItem.re_map
  simp [h]

theorem length_replaceFirst (l : List TagItem) (item : TagItem) :
    (replaceFirst l item).length = l.length := by
  induction l with
  | nil => rfl
  | cons x xs ih =>
    unfold replaceFirst
    by_cases hx : x.item_key = item.item_key
    · simp [hx]
    · simp [hx, ih]

theorem keys_replaceFirst (l : List TagItem) (item : TagItem) :
    (replaceFirst l item).map (fun i => i.item_key) =
      l.map (fun i => i.item_key) := by
  induction l with
  | nil => rfl
  | cons x xs ih =>
    unfold replaceFirst
    by_cases hx : x.item_key = item.item_key
    · simp [hx]
    · simp [hx, ih]

theorem mem_replaceFirst {l : List TagItem} {item i : TagItem}
    (h : i ∈ replaceFirst l item) : i ∈ l ∨ i = item := by
  induction l with
  | nil => simp [replaceFirst] at h
  | cons x xs ih =>
    unfold replaceFirst at h
    by_cases hx : x.item_key = item.item_key
    · rw [if_pos hx] at h
      rcases List.mem_cons.mp h with h2 | h2
      · right; exact h2
      · left; exact List.mem_cons_of_mem _ h2
    · rw [if_neg hx] at h
      rcases List.mem_cons.mp h with h2 | h2
      · left; rw [h2]; exact List.mem_cons_self _ _
      · rcases ih h2 with h3 | h3
        · left; exact List.mem_cons_of_mem _ h3
        · right; exact h3

theorem find?_replaceFirst {l : List TagItem} {item j : TagItem}
    (h : l.find? (fun i => decide (i.item_key = item.item_key)) = some j) :
    (replaceFirst l item).find? (fun i => decide (i.item_key = item.item_key)) =
      some item := by
  induction l with
  | nil => simp at h
  | cons x xs ih =>
    unfold replaceFirst
    by_cases hx : x.item_key = item.item_key
    · rw [if_pos hx]
      rw [List.find?_cons_of_pos]
      simp
    · rw [if_neg hx]
      rw [List.find?_cons_of_neg _ (by simp [hx])] at h
      rw [List.find?_cons_of_neg _ (by simp [hx])]
      exact ih h

theorem key_not_mem_of_find?_none {l : List TagItem} {k : ItemKey}
    (h : l.find? (fun i => decide (i.item_key = k)) = none) :
    k ∉ l.map (fun i => i.item_key) := by
  intro hmem
  rcases List.mem_map.mp hmem with ⟨i, hi, hk⟩
  have h2 := List.find?_eq_none.mp h i hi
  simp [hk] at h2

theorem reachable_tag_type {tagType : TagType} {t : Tag}
    (h : TagReachable tagType t) : t.tag_type = tagType := by
  induction h with
  | empty => rfl
  | insert t0 item h0 ih => rw [insert_item_tag_type]; exact ih

theorem reachable_items_mapped {tagType : TagType} {t : Tag}
    (h : TagReachable tagType t) :
    ∀ i ∈ t.items, (i.item_key.map_key t.tag_type).isSome = true := by
  induction h with
  | empty => intro i hi; simp [Tag.empty] at hi
  | insert t0 item h0 ih =>
    have htt := insert_item_tag_type t0 item
    rw [htt]
    rcases hr : item.re_map t0.tag_type with _ | it
    · rw [insert_item_eq_none hr]
      exact ih
    · obtain ⟨hit, hm⟩ := re_map_some hr
      rw [hit] at hr
      rcases hf : t0.items.find?
          (fun i => decide (i.item_key = item.item_key)) with _ | j
      · rw [insert_item_eq_push hr hf]
        intro i hi
        rcases List.mem_append.mp hi with h2 | h2
        · exact ih i h2
        · have h3 : i = item := by simpa using h2
          rw [h3]; exact hm
      · rw [insert_item_eq_replace hr hf]
        intro i hi
        rcases mem_replaceFirst hi with h2 | h2
        · exact ih i h2
        · rw [h2]; exact hm

theorem reachable_keys_nodup {tagType : TagType} {t : Tag}
    (h : TagReachable tagType t) :
    (t.items.map (fun i => i.item_key)).Nodup := by
  induction h with
  | empty => simp [Tag.empty]
  | insert t0 item h0 ih =>
    rcases hr : item.re_map t0.tag_type with _ | it
    · rw [insert_item_eq_none hr]
      exact ih
    · obtain ⟨hit, hm⟩ := re_map_some hr
      rw [hit] at hr
      rcases hf : t0.items.find?
          (fun i => decide (i.item_key = item.item_key)) with _ | j
      · rw [insert_item_eq_push hr hf]
        have hnot := key_not_mem_of_find?_none hf
        dsimp only
        rw [List.map_append, List.nodup_append]
        refine ⟨ih, List.nodup_singleton _, ?_⟩
        intro a ha hb
        have hab : a = item.item_key := by simpa using hb
        rw [hab] at ha
        exact hnot ha
      · rw [insert_item_eq_replace hr hf]
        dsimp only
        rw [keys_replaceFirst]
        exact ih

/-! ## Helper lemmas about removing the first matching picture -/

theorem position_eraseIdx {α : Type} (p : α → Bool) (l : List α) :
    (match position p l with
     | some pos => l.eraseIdx pos
     | none => l) = dropFirstMatch p l := by
  induction l with
  | nil => rfl
  | cons x xs ih =>
    by_cases hx : p x = true
    · simp [position, dropFirstMatch, hx, List.eraseIdx]
    · have hx2 : p x = false := by simpa using hx
      cases hpos : position p xs with
      | none =>
        have h2 : xs = dropFirstMatch p xs := by
          have h3 := ih
          rw [hpos] at h3
          exact h3
        simp [position, dropFirstMatch, hx2, hpos, ← h2]
      | some i =>
        have h2 : xs.eraseIdx i = dropFirstMatch p xs := by
          have h3 := ih
          rw [hpos] at h3
          exact h3
        simp [position, dropFirstMatch, hx2, hpos, List.eraseIdx, h2]

theorem remove_picture_type_pictures (t : Tag) (pt : PictureType) :
    (t.remove_picture_type pt).pictures =
      dropFirstMatch (fun p => decide (p.pic_type = pt)) t.pictures := by
  unfold Tag.remove_picture_type
  have h := position_eraseIdx (fun p => decide (p.pic_type = pt)) t.pictures
  cases hpos : position (fun p => decide (p.pic_type = pt)) t.pictures with
  | none =>
    rw [hpos] at h
    simpa using h
  | some i =>
    rw [hpos] at h
    simpa using h

theorem filter_not_dropFirstMatch {α : Type} (p : α → Bool) (l : List α) :
    (dropFirstMatch p l).filter (fun a => !(p a)) =
      l.filter (fun a => !(p a)) := by
  induction l with
  | nil => rfl
  | cons x xs ih =>
    by_cases hx : p x = true
    · simp [dropFirstMatch, hx]
    · have hx2 : p x = false := by simpa using hx
      simp [dropFirstMatch, hx2, ih]

theorem length_dropFirstMatch {α : Type} (p : α → Bool) (l : List α) :
    l.length ≤ (dropFirstMatch p l).length + 1 ∧
    (dropFirstMatch p l).length ≤ l.length := by
  induction l with
  | nil => exact ⟨Nat.zero_le _, Nat.le_refl _⟩
  | cons x xs ih =>
    obtain ⟨ih1, ih2⟩ := ih
    by_cases hx : p x = true
    · simp only [dropFirstMatch, hx, if_true, List.length_cons]
      omega
    · have hx2 : p x = false := by simpa using hx
      simp [dropFirstMatch, hx2]
      omega

/-! ## Claim theorems -/

/-- C3: for every (ItemKey, TagType) pair with a defined mapping, inserting an
item of that key into the empty tag of that type returns true, and a
subsequent `get_item_ref` for that key returns the inserted item with its
value unchanged. -/
theorem insert_item_then_get (tagType : TagType) (key : ItemKey) (v : ItemValue)
    (h : (key.map_key tagType).isSome = true) :
    ((Tag.empty tagType).insert_item ⟨key, v⟩).1 = true ∧
    ((Tag.empty tagType).insert_item ⟨key, v⟩).2.get_item_ref key =
      some ⟨key, v⟩ := by
  have hr : (⟨key, v⟩ : TagItem).re_map (Tag.empty tagType).tag_type =
      some ⟨key, v⟩ := re_map_of_isSome h
  have hf : (Tag.empty tagType).items.find?
      (fun i => decide (i.item_key = (⟨key, v⟩ : TagItem).item_key)) = none := rfl
  rw [insert_item_eq_push hr hf]
  refine ⟨rfl, ?_⟩
  simp [Tag.get_item_ref, Tag.empty]

/-- C3 witness: Title maps into the Opus format; inserting it into the empty
Opus tag succeeds and the lookup returns the item. -/
theorem insert_item_then_get_witness :
    ((Tag.empty TagType.Opus).insert_item
      ⟨ItemKey.Title, ItemValue.Text "x"⟩).1 = true ∧
    ((Tag.empty TagType.Opus).insert_item
      ⟨ItemKey.Title, ItemValue.Text "x"⟩).2.get_item_ref ItemKey.Title =
      some ⟨ItemKey.Title, ItemValue.Text "x"⟩ :=
  insert_item_then_get TagType.Opus ItemKey.Title (ItemValue.Text "x") rfl

/-- C4: for every tag and every item whose key has no mapping for the tag's
own type, `insert_item` returns false and leaves the tag completely
unmodified. -/
theorem insert_item_unmapped_noop (t : Tag) (item : TagItem)
    (h : item.item_key.map_key t.tag_type = none) :
    (t.insert_item item).1 = false ∧ (t.insert_item item).2 = t := by
  have hr : item.re_map t.tag_type = none := by
    unfold TagItem.re_map
    simp [h]
  rw [insert_item_eq_none hr]
  exact ⟨rfl, rfl⟩

/-- C4 witness: Title has no modelled mapping for the Ape format; inserting it
into the empty Ape tag fails and leaves the tag unchanged. -/
theorem insert_item_unmapped_noop_witness :
    ((Tag.empty TagType.Ape).insert_item
      ⟨ItemKey.Title, ItemValue.Text "x"⟩).1 = false ∧
    ((Tag.empty TagType.Ape).insert_item
      ⟨ItemKey.Title, ItemValue.Text "x"⟩).2 = Tag.empty TagType.Ape :=
  insert_item_unmapped_noop (Tag.empty TagType.Ape)
    ⟨ItemKey.Title, ItemValue.Text "x"⟩ rfl

/-- C5: every tag reachable from an empty tag through `insert_item` holds at
most one item per distinct key, and inserting an item whose key is already
present replaces the stored item — the lookup afterwards returns the new item
and the item count is unchanged. -/
theorem tag_insert_unique_replace (tagType : TagType) (t : Tag)
    (h : TagReachable tagType t) (item : TagItem) :
    (t.items.map (fun i => i.item_key)).Nodup ∧
    ((t.get_item_ref item.item_key).isSome = true →
      (t.insert_item item).1 = true ∧
      (t.insert_item item).2.item_count = t.item_count ∧
      (t.insert_item item).2.get_item_ref item.item_key = some item) := by
  refine ⟨reachable_keys_nodup h, ?_⟩
  intro hsome
  rcases Option.isSome_iff_exists.mp hsome with ⟨j, hj⟩
  have hj2 : t.items.find? (fun i => decide (i.item_key = item.item_key)) =
      some j := hj
  have hjmem : j ∈ t.items := List.mem_of_find?_eq_some hj2
  have hjkey : j.item_key = item.item_key := by
    have h3 := List.find?_some hj2
    simpa using h3
  have hm : (item.item_key.map_key t.tag_type).isSome = true := by
    have h4 := reachable_items_mapped h j hjmem
    rwa [hjkey] at h4
  have hr : item.re_map t.tag_type = some item := re_map_of_isSome hm
  rw [insert_item_eq_replace hr hj2]
  refine ⟨rfl, ?_, ?_⟩
  · dsimp only [Tag.item_count]
    rw [length_replaceFirst]
  · dsimp only [Tag.get_item_ref]
    exact find?_replaceFirst hj2

/-- C5 witness: the spec scenario — a Vorbis tag holding TrackNumber "3" has
one item with distinct keys; inserting TrackNumber "4" succeeds, keeps the
item count at one, and the stored value becomes "4". -/
theorem tag_insert_unique_replace_witness :
    (vorbisTag1.items.map (fun i => i.item_key)).Nodup ∧
    ((vorbisTag1.insert_item ⟨ItemKey.TrackNumber, ItemValue.Text "4"⟩).1 =
      true ∧
     (vorbisTag1.insert_item
       ⟨ItemKey.TrackNumber, ItemValue.Text "4"⟩).2.item_count =
       vorbisTag1.item_count ∧
     (vorbisTag1.insert_item
       ⟨ItemKey.TrackNumber, ItemValue.Text "4"⟩).2.get_item_ref
       ItemKey.TrackNumber = some ⟨ItemKey.TrackNumber, ItemValue.Text "4"⟩) := by
  have hreach : TagReachable TagType.Vorbis vorbisTag1 :=
    TagReachable.insert (Tag.empty TagType.Vorbis)
      ⟨ItemKey.TrackNumber, ItemValue.Text "3"⟩ TagReachable.empty
  have hmain := tag_insert_unique_replace TagType.Vorbis vorbisTag1 hreach
    ⟨ItemKey.TrackNumber, ItemValue.Text "4"⟩
  exact ⟨hmain.1, hmain.2 rfl⟩

/-- C8: `remove_picture_type` removes at most one picture — the first whose
declared type matches — and leaves every picture of a different declared type
in place. -/
theorem remove_picture_type_removes_at_most_one (t : Tag) (pt : PictureType) :
    (t.remove_picture_type pt).pictures =
      dropFirstMatch (fun p => decide (p.pic_type = pt)) t.pictures ∧
    (t.remove_picture_type pt).pictures.filter
      (fun p => decide (p.pic_type ≠ pt)) =
      t.pictures.filter (fun p => decide (p.pic_type ≠ pt)) ∧
    t.pictures.length ≤ (t.remove_picture_type pt).pictures.length + 1 ∧
    (t.remove_picture_type pt).pictures.length ≤ t.pictures.length := by
  have hp := remove_picture_type_pictures t pt
  have hfun : (fun p : Picture => decide (p.pic_type ≠ pt)) =
      (fun p : Picture => !(decide (p.pic_type = pt))) := by
    funext p
    simp [decide_not]
  refine ⟨hp, ?_, ?_, ?_⟩
  · rw [hp, hfun]
    exact filter_not_dropFirstMatch _ _
  · rw [hp]
    exact (length_dropFirstMatch _ _).1
  · rw [hp]
    exact (length_dropFirstMatch _ _).2

/-! ## Claim theorems about the Opus adapter -/

/-- C1: evaluation of `OpusTag::set_first` at a state whose comment map
already holds a TITLE entry with value "old". The claim says the value is
replaced by the new value; the code leaves the whole store, and in particular
the stored value, unchanged, because the assignment in the `Some` arm only
rebinds a local reference. -/
theorem set_first_leaves_existing_entry_unchanged :
    opusWithOldTitle.set_first "TITLE" "new" = opusWithOldTitle ∧
    (opusWithOldTitle.set_first "TITLE" "new").get_first "TITLE" = some "old" ∧
    (opusWithOldTitle.set_first "TITLE" "new").get_first "TITLE" ≠ some "new" := by
  refine ⟨rfl, rfl, ?_⟩
  decide

/-- C2: evaluation of the Opus round trip at a state holding only a TITLE
entry with value "Song". The claim says the round trip through `AnyTag`
reproduces the title; the rebuilt adapter starts from the default (empty)
comment map and `set_first` never inserts, so the title comes back absent. -/
theorem opus_round_trip_drops_title :
    opusWithSongTitle.title = some "Song" ∧
    (OpusTag.fromAny (AnyTag.fromOpus opusWithSongTitle).1).title = none := by
  exact ⟨rfl, rfl⟩

/-- C6: evaluation of `OpusTag::set_year` at the default (empty) adapter. The
claim says `set_year(2001)` populates both the DATE and the YEAR entries and
`year()` then returns 2001; the code leaves both entries absent (`set_first`
never inserts) and `year()` returns `none`. -/
theorem set_year_leaves_fields_absent :
    (OpusTag.default.set_year 2001).get_first "DATE" = none ∧
    (OpusTag.default.set_year 2001).get_first "YEAR" = none ∧
    (OpusTag.default.set_year 2001).year = none := by
  exact ⟨rfl, rfl, rfl⟩

/-- C7: the adapter-to-AnyTag conversion does not mutate the adapter — the
underlying comment store (indeed the whole adapter state) carried out of the
conversion is the state that went in. -/
theorem anytag_from_opus_preserves_adapter (t : OpusTag) :
    (AnyTag.fromOpus t).2 = t := rfl

/-- C10: for every adapter state, `write_to` and `write_to_path` return
`Ok(())` and leave both the adapter and the destination untouched, and
`album_cover` returns `None` regardless of the adapter's contents. -/
theorem opus_write_and_cover_are_noops (t : OpusTag) (file : File)
    (path : String) (fs : Storage) :
    t.write_to file = (Except.ok (), t, file) ∧
    t.write_to_path path fs = (Except.ok (), t, fs) ∧
    t.album_cover = none := ⟨rfl, rfl, rfl⟩

/-- C9: the numeric getters of the Opus adapter are total and report malformed
stored metadata as absence: whenever the stored string under the relevant key
fails to parse (and, for `year`, both the DATE prefix and the YEAR entry fail
to parse), the getter returns `none`. Totality and freedom from panics hold by
construction: every getter is a total function into `Option`. -/
theorem opus_numeric_getters_none_on_malformed (t : OpusTag) :
    (∀ s, t.get_first "TRACKNUMBER" = some s → parseU16 s = none →
      t.track_number = none) ∧
    (∀ s, t.get_first "TOTALTRACKS" = some s → parseU16 s = none →
      t.total_tracks = none) ∧
    (∀ s, t.get_first "DISCNUMBER" = some s → parseU16 s = none →
      t.disc_number = none) ∧
    (∀ s, t.get_first "TOTALDISCS" = some s → parseU16 s = none →
      t.total_discs = none) ∧
    ((∀ s, t.get_first "DATE" = some s → parseI32 (String.mk (s.data.take 4)) = none) →
     (∀ s, t.get_first "YEAR" = some s → parseI32 s = none) →
     t.year = none) := by
  refine ⟨?_, ?_, ?_, ?_, ?_⟩
  · intro s hs hp
    simp [OpusTag.track_number, hs, hp]
  · intro s hs hp
    simp [OpusTag.total_tracks, hs, hp]
  · intro s hs hp
    simp [OpusTag.disc_number, hs, hp]
  · intro s hs hp
    simp [OpusTag.total_discs, hs, hp]
  · intro hDate hYear
    unfold OpusTag.year
    rcases hd : t.get_first "DATE" with _ | s
    · rcases hy : t.get_first "YEAR" with _ | s2
      · simp
      · simp [hYear s2 hy]
    · rcases hy : t.get_first "YEAR" with _ | s2
      · simp [hDate s hd]
      · simp [hDate s hd, hYear s2 hy]

/-- C9 witness: the malformed adapter state instantiates every hypothesis of
the totality theorem. -/
theorem opus_numeric_getters_none_on_malformed_witness :
    opusMalformed.track_number = none ∧ opusMalformed.total_tracks = none ∧
    opusMalformed.disc_number = none ∧ opusMalformed.total_discs = none ∧
    opusMalformed.year = none := by
  obtain ⟨h1, h2, h3, h4, h5⟩ :=
    opus_numeric_getters_none_on_malformed opusMalformed
  refine ⟨h1 "abc" rfl rfl, h2 "1x" rfl rfl, h3 "-1" rfl rfl,
    h4 "70000" rfl rfl, h5 ?_ ?_⟩
  · intro s hs
    have h : (some "abcd" : Option String) = some s := hs
    cases Option.some.inj h
    rfl
  · intro s hs
    have h : (some "199x" : Option String) = some s := hs
    cases Option.some.inj h
    rfl

end LoftySpec
